import Mathlib

/-!
Verification development for the mongodump-s3 backup tool.

The Python modules under src/mongodump_s3/ are shallowly embedded below.
External collaborators (the OS socket layer, the filesystem, the mongodump
subprocess, the three cloud SDKs, pathlib's parent computation) are passed in
as explicit oracle parameters or as explicit pieces of state; everything the
repository's own code computes is translated function by function.

Conventions:
- a Python value read from os.getenv is an `Option String` (None or a str);
- a Python function that returns either a str or the literal False is a
  `PyStrOrFalse`;
- the filesystem, as far as the dump module looks at it, is a map from a
  directory name to the contents stored under that name (`Fs`), with the
  contents abstracted to a `Nat` tag;
- a raised-and-not-caught exception is an explicit error value of the
  surrounding `Except`/`Option`, never an implicit crash.
-/

/-! ## helpers.py -/

/-- Embeds helpers.env_exists: true iff the variable is neither None nor
the empty string. -/
def env_exists (envVariable : Option String) : Bool :=
  match envVariable with
  | some s => if s = "" then false else true
  | none => false

/-- Python str(bool): str(True) = "True", str(False) = "False". -/
def pyStr (b : Bool) : String := if b then "True" else "False"

/-- Result of a Python function that returns a str on success and the
literal False on failure (dump.py _get_dump_size and _rename_dump). -/
inductive PyStrOrFalse
  | ok (s : String)
  | fail
deriving DecidableEq

/-! ## Python string splitting

Python's str.split(sep) with a one-character separator, including its
behavior on empty strings ("".split(x) = ['']) and trailing separators.
Implemented by structural recursion over the character list so that every
theorem below can be checked by evaluation. -/

def pySplitAux (sep : Char) : List Char → List Char → List (List Char)
  | [], acc => [acc.reverse]
  | c :: rest, acc =>
    if c = sep then acc.reverse :: pySplitAux sep rest []
    else pySplitAux sep rest (c :: acc)

/-- Python s.split(sep) for a single-character separator. -/
def pySplit (s : String) (sep : Char) : List String :=
  (pySplitAux sep s.toList []).map String.mk

/-- Python's == between an int and a str never raises and is always False
(values of different builtin types are unequal). dump.py compares
len(mongo_srv) against the string literal '2' with exactly this operator. -/
def pyIntEqStr (_n : Nat) (_s : String) : Bool := false

/-! ## dump.py — MongoDump -/

/-- Embeds MongoDump.__init__ lines 40-44: the output folder falls back to
'dump' when MONGO_OUTPUT_FOLDER is absent or empty. (The .getD default is
never reached: env_exists guarantees the option is some.) -/
def MongoDump.resolveOutputFolder (mongoOutputFolder : Option String) : String :=
  if env_exists mongoOutputFolder then mongoOutputFolder.getD "dump" else "dump"

/-- Embeds MongoDump._strip_mongo_uri: take authority section (index 2 of the
'/'-split, whole string on IndexError), drop credentials (index 1 of the
'@'-split, whole string on IndexError), then split on ',' and each location
on ':'. -/
def MongoDump.strip_mongo_uri (mongoUri : String) : List (List String) :=
  let srvString := ((pySplit mongoUri '/').get? 2).getD mongoUri
  let noCreds := ((pySplit srvString '@').get? 1).getD srvString
  (pySplit noCreds ',').map fun location => pySplit location ':'

/-- The (host, port) pairs MongoDump._check_mongo_socket actually probes:
host is element 0 of the split location; the port starts as 27017 and is
replaced by the parsed port only when len(mongo_srv) == '2' — a comparison
of an int against a str, which is always False in Python, so the declared
port is never used. (int(...) is modelled by toNat?; the branch is dead.) -/
def MongoDump.socket_targets (mongoUri : String) : List (String × Nat) :=
  (MongoDump.strip_mongo_uri mongoUri).map fun mongoSrv =>
    let mongoHost := mongoSrv.headD ""
    let mongoPort :=
      if pyIntEqStr mongoSrv.length "2" then ((mongoSrv.getD 1 "").toNat?.getD 0)
      else 27017
    (mongoHost, mongoPort)

/-- Embeds MongoDump._check_mongo_socket: walk the parsed servers, return
True at the first location whose connect_ex gives 0, False when none does.
connectExZero is the socket oracle: true iff a TCP connect to (host, port)
succeeds. -/
def MongoDump.check_mongo_socket (mongoUri : String)
    (connectExZero : String → Nat → Bool) : Bool :=
  (MongoDump.socket_targets mongoUri).any fun t => connectExZero t.1 t.2

/-- Embeds MongoDump.dump_db: only when the socket check passes is mongodump
spawned; the exit code of that external process is the oracle exitCode, and
only exit code 0 yields True. -/
def MongoDump.dump_db (mongoUri : String) (connectExZero : String → Nat → Bool)
    (exitCode : Nat) : Bool :=
  if MongoDump.check_mongo_socket mongoUri connectExZero then
    if exitCode = 0 then true else false
  else false

/-! ## dump.py — filesystem state

The dump module only ever looks at two directory names: the working output
folder and its date-suffixed sibling. The filesystem is a map from a
directory name to an abstract tag for the contents stored there. -/

/-- Directory name to contents (a Nat tag); none = no such directory. -/
def Fs : Type := String → Option Nat

/-- Remove a directory name from the filesystem map. -/
def fsErase (fs : Fs) (d : String) : Fs :=
  fun x => if x = d then none else fs x

/-- Bind a directory name to contents in the filesystem map. -/
def fsSet (fs : Fs) (d : String) (c : Nat) : Fs :=
  fun x => if x = d then some c else fs x

/-- shutil.rmtree: removes the directory, raises FileNotFoundError (an
OSError) when the path does not exist. -/
def shutilRmtree (fs : Fs) (d : String) : Except Unit Fs :=
  match fs d with
  | some _ => Except.ok (fsErase fs d)
  | none => Except.error ()

/-- shutil.move with a non-existing destination: renames src to dst, raises
FileNotFoundError (an os.error) when src does not exist. rename_dump below
always deletes the destination first, so the move-into-existing-directory
behavior of shutil.move is never reached. -/
def shutilMove (fs : Fs) (src dst : String) : Except Unit Fs :=
  match fs src with
  | some c => Except.ok (fsSet (fsErase fs src) dst c)
  | none => Except.error ()

/-- The dated folder name computed by both _rename_dump and cleanup:
f-string {output_folder}-{datetime.date.today()}. -/
def mkDatedName (outputFolder today : String) : String :=
  outputFolder ++ "-" ++ today

/-- Embeds MongoDump._rename_dump: compute the dated name; if a directory of
that exact name exists, rmtree it (outside the try block); then move the
working folder onto the dated name inside try/except os.error, returning the
dated name on success and False on any move failure. moveFails is the OS
oracle for a move that fails for a reason other than a missing source. -/
def MongoDump.rename_dump (outputFolder today : String) (moveFails : Bool)
    (fs : Fs) : Fs × PyStrOrFalse :=
  let datedName := mkDatedName outputFolder today
  let fs1 := if (fs datedName).isSome then fsErase fs datedName else fs
  if moveFails then (fs1, PyStrOrFalse.fail)
  else
    match shutilMove fs1 outputFolder datedName with
    | Except.ok fs2 => (fs2, PyStrOrFalse.ok datedName)
    | Except.error _ => (fs1, PyStrOrFalse.fail)

/-- Embeds MongoDump.cleanup, bug included: inside one try/except OSError it
removes the dated folder if present, and then, when the working output folder
is present, calls shutil.rmtree on dump_folder_name AGAIN (the source names
the dated folder here, not the output folder), which raises because that name
was just removed or never existed; the except clause turns this into a False
return, leaving the working folder on disk. -/
def MongoDump.cleanup (outputFolder today : String) (fs : Fs) : Fs × Bool :=
  let datedName := mkDatedName outputFolder today
  let step1 : Except Unit Fs :=
    if (fs datedName).isSome then shutilRmtree fs datedName else Except.ok fs
  match step1 with
  | Except.error _ => (fs, false)
  | Except.ok fs1 =>
    let step2 : Except Unit Fs :=
      if (fs1 outputFolder).isSome then shutilRmtree fs1 datedName
      else Except.ok fs1
    match step2 with
    | Except.error _ => (fs1, false)
    | Except.ok fs2 => (fs2, true)

/-- The dict MongoDump.exec returns: key 'dump' always (str of the bool),
keys 'size' and 'path' only present when the dump succeeded. -/
structure DumpExecDict where
  dump : String
  size : Option PyStrOrFalse
  path : Option PyStrOrFalse
deriving DecidableEq

/-- Embeds MongoDump.exec: runs dump_db; on success adds _get_dump_size and
_rename_dump results under 'size' and 'path'; on failure the dict has only
the 'dump' key. The two sub-results are passed in as the outcomes the
filesystem produced for this run. -/
def MongoDump.execDict (dumpState : Bool) (sizeRes renameRes : PyStrOrFalse) :
    DumpExecDict :=
  if dumpState then
    { dump := pyStr dumpState, size := some sizeRes, path := some renameRes }
  else
    { dump := pyStr dumpState, size := none, path := none }

/-! ## s3.py — S3 -/

/-- Embeds S3.__init__ lines 28-35: the bucket name falls back to 'mongodump'
when MONGO_DUMP_BUCKET is absent or empty. -/
def S3.resolveBucketName (mongoDumpBucket : Option String) : String :=
  if env_exists mongoDumpBucket then mongoDumpBucket.getD "mongodump"
  else "mongodump"

/-- What a provider client constructor hands back: a ready SDK handle, or
Python False when the provider is skipped or errored. -/
inductive ClientResult
  | handle
  | noClient
deriving DecidableEq

/-- Environment and SDK outcomes seen by S3._make_azure_client.
listOk false models from_connection_string/list_containers raising
ValueError; createError (some msg) models create_container raising
AzureError(msg), none models a successful creation. -/
structure AzureEnv where
  connectionString : Option String
  listOk : Bool
  containers : List String
  createError : Option String
deriving DecidableEq

/-- Embeds S3._make_azure_client: skip without credentials; return False on a
listing error; return the handle when the container is already listed; else,
when create_bucket is set, try to create — ANY AzureError from the creation
call (an already-exists race included) is only logged and the function falls
through to return False. -/
def S3.make_azure_client (s3Bucket : String) (createBucket : Bool)
    (env : AzureEnv) : ClientResult :=
  if env_exists env.connectionString then
    if env.listOk = false then ClientResult.noClient
    else if s3Bucket ∈ env.containers then ClientResult.handle
    else if createBucket then
      match env.createError with
      | none => ClientResult.handle
      | some _ => ClientResult.noClient
    else ClientResult.noClient
  else ClientResult.noClient

/-- Environment and SDK outcomes seen by S3._make_aws_client. listOk false
models list_buckets raising botocore ClientError; createError as for Azure. -/
structure AwsEnv where
  accessKeyId : Option String
  secretAccessKey : Option String
  region : Option String
  listOk : Bool
  buckets : List String
  createError : Option String
deriving DecidableEq

/-- The region _make_aws_client creates the bucket in: AWS_REGION when set
and non-empty, else 'us-west-2'. -/
def S3.resolvedAwsRegion (env : AwsEnv) : String :=
  if env_exists env.region then env.region.getD "us-west-2" else "us-west-2"

/-- Embeds S3._make_aws_client: skip unless both key id and secret are set;
return False on a listing error; return the handle when the bucket is already
listed; else create it in the resolved region — ANY botocore ClientError from
create_bucket (an already-owned-by-you race included) is only logged and the
function falls through to return False. Note the source consults
self.create_bucket only in the Azure constructor, not here. -/
def S3.make_aws_client (s3Bucket : String) (env : AwsEnv) : ClientResult :=
  if env_exists env.accessKeyId && env_exists env.secretAccessKey then
    if env.listOk = false then ClientResult.noClient
    else if s3Bucket ∈ env.buckets then ClientResult.handle
    else
      match env.createError with
      | none => ClientResult.handle
      | some _ => ClientResult.noClient
  else ClientResult.noClient

/-- Environment and SDK outcomes seen by S3._make_gcp_client. credsFileExists
models Path(GOOGLE_APPLICATION_CREDENTIALS).is_file(); listOk false models
Client()/list_buckets raising a google auth error. -/
structure GcpEnv where
  credentials : Option String
  credsFileExists : Bool
  region : Option String
  listOk : Bool
  buckets : List String
  createError : Option String
deriving DecidableEq

/-- The region _make_gcp_client creates the bucket in: the source tests the
raw value for Python truthiness (None and '' both falsy) and falls back
to 'us'. -/
def S3.resolvedGoogleRegion (env : GcpEnv) : String :=
  match env.region with
  | none => "us"
  | some s => if s = "" then "us" else s

/-- Embeds S3._make_gcp_client: skip unless the credentials variable is set
and points at an existing file; return False on a listing error; return the
handle when the bucket is already listed; else create it — ANY google
ClientError from create_bucket is only logged and the function falls through
to return False. -/
def S3.make_gcp_client (s3Bucket : String) (env : GcpEnv) : ClientResult :=
  if env_exists env.credentials && env.credsFileExists then
    if env.listOk = false then ClientResult.noClient
    else if s3Bucket ∈ env.buckets then ClientResult.handle
    else
      match env.createError with
      | none => ClientResult.handle
      | some _ => ClientResult.noClient
  else ClientResult.noClient

/-- The three provider keys of the providers dict. -/
inductive ProviderId
  | azure
  | aws
  | gcp
deriving DecidableEq

/-- Embeds S3.create_storage_clients: the providers dict holds exactly the
providers whose constructor returned a truthy client. -/
def S3.create_storage_clients (s3Bucket : String) (createBucket : Bool)
    (ae : AzureEnv) (we : AwsEnv) (ge : GcpEnv) : List ProviderId :=
  (if S3.make_azure_client s3Bucket createBucket ae = ClientResult.handle
    then [ProviderId.azure] else []) ++
  (if S3.make_aws_client s3Bucket we = ClientResult.handle
    then [ProviderId.aws] else []) ++
  (if S3.make_gcp_client s3Bucket ge = ClientResult.handle
    then [ProviderId.gcp] else [])

/-! ## s3.py — uploads -/

/-- Which providers are present in self.providers for an upload call. -/
structure Providers where
  azure : Bool
  aws : Bool
  gcp : Bool
deriving DecidableEq

/-- One provider upload either succeeds or raises that provider's SDK error
(the error type each block catches: AzureError, botocore ClientError,
google ClientError). -/
inductive UploadOutcome
  | ok
  | sdkError (msg : String)
deriving DecidableEq

/-- The filesystem and SDK outcomes seen by one upload_local_file call. -/
structure UploadEnv where
  fileExists : Bool
  azureResult : UploadOutcome
  awsResult : UploadOutcome
  gcpResult : UploadOutcome
deriving DecidableEq

/-- Embeds the remote-name resolution at the top of S3.upload_local_file:
remote_file_path is a varargs tuple; when it is empty it is replaced by the
local path STRING, after which remote_file_path[0] is taken — for a tuple
that is its first element, but for a string it is the first CHARACTER.
none models the IndexError raised when the tuple is empty and the local path
is the empty string. -/
def S3.resolveRemoteKey (localFilePath : String) (remoteFilePath : List String) :
    Option String :=
  match remoteFilePath with
  | [] => localFilePath.toList.head?.map String.singleton
  | a :: _ => some a

/-- One attempted provider upload, with the outcome its try/except block
caught. -/
structure Attempt where
  provider : ProviderId
  outcome : UploadOutcome
deriving DecidableEq

/-- The provider blocks upload_local_file runs in order: azure, aws, gcp —
each wrapped in its own try/except, so a raising provider never stops the
following blocks. -/
def providerBlocks (providers : Providers) (env : UploadEnv) : List Attempt :=
  (if providers.azure then [⟨ProviderId.azure, env.azureResult⟩] else []) ++
  (if providers.aws then [⟨ProviderId.aws, env.awsResult⟩] else []) ++
  (if providers.gcp then [⟨ProviderId.gcp, env.gcpResult⟩] else [])

/-- What one S3.upload_local_file call did: its return value (none = the
IndexError from key resolution propagated), the remote key it used for every
provider, and the per-provider attempts it made. -/
structure FileUploadRun where
  result : Option Bool
  keyUsed : Option String
  attempts : List Attempt
deriving DecidableEq

/-- Embeds S3.upload_local_file: resolve the remote key, then — only if the
local file exists — run every configured provider block (each exception
caught and logged inside its own block) and return True; return False with no
attempts when the local file does not exist. -/
def S3.upload_local_file (providers : Providers) (localFilePath : String)
    (remoteFilePath : List String) (env : UploadEnv) : FileUploadRun :=
  match S3.resolveRemoteKey localFilePath remoteFilePath with
  | none => ⟨none, none, []⟩
  | some key =>
    if env.fileExists then ⟨some true, some key, providerBlocks providers env⟩
    else ⟨some false, some key, []⟩

/-! ## s3.py — upload_local_folder

Paths are modelled as lists of components; pathStr is Python's str(Path)
for a relative or prefix-stripped path. The folder's regular files are given
as component paths relative to the folder, exactly what rglob('*') plus
is_file() enumerates. -/

/-- Python str(Path ...) on a path given by its components. -/
def pathStr (parts : List String) : String := String.intercalate "/" parts

/-- Embeds PurePath.relative_to: drop the other path's components from the
front; none models the ValueError raised when the path is not below other. -/
def pathRelativeTo : List String → List String → Option (List String)
  | [], rest => some rest
  | _ :: _, [] => none
  | a :: as, b :: bs => if a = b then pathRelativeTo as bs else none

/-- An existing-or-not directory and the regular files below it (component
paths relative to dirPath), as rglob('*') + is_file() would list them. -/
structure FolderFs where
  dirPath : List String
  dirExists : Bool
  files : List (List String)
deriving DecidableEq

/-- The (local name, remote name) pairs the upload loop passes to
upload_local_file, in order; none models an uncaught ValueError from
relative_to aborting the loop. parentOpt none models the default '' (the
remote name is then the full local path). -/
def uploadCalls (dirPath : List String) (parentOpt : Option (List String)) :
    List (List String) → Option (List (String × String))
  | [] => some []
  | rel :: rest =>
    let full := dirPath ++ rel
    match (match parentOpt with
           | none => some full
           | some par => pathRelativeTo par full) with
    | none => none
    | some remote =>
      (uploadCalls dirPath parentOpt rest).map fun calls =>
        (pathStr full, pathStr remote) :: calls

/-- Embeds S3.upload_local_folder: when the directory exists, upload every
regular file below it (per-file return values are ignored) and return True;
return False when it does not exist. The Bool is the return value, the list
the upload_local_file calls made. -/
def S3.upload_local_folder (fs : FolderFs) (parentOpt : Option (List String)) :
    Option (Bool × List (String × String)) :=
  if fs.dirExists then
    (uploadCalls fs.dirPath parentOpt fs.files).map fun calls => (true, calls)
  else some (false, [])

/-! ## mongodump_s3.py — MongoDumpS3.exec -/

/-- The observable side effects of one MongoDumpS3.exec run, in order. -/
inductive Event
  | notify (success : Bool)
  | uploadFolderCall (path parent : String)
  | cleanupCall
deriving DecidableEq

/-- How one MongoDumpS3.exec run ends: a returned bool, or an uncaught
exception — TypeError from Path(False) when _rename_dump failed, KeyError
when a missing dict key is read (provably unreachable here). -/
inductive ExecOutcome
  | ret (b : Bool)
  | typeError
  | keyError
deriving DecidableEq

/-- The outcomes the collaborators produce during one pipeline run: whether
dump_db succeeded, what _get_dump_size and _rename_dump returned, and whether
upload_local_folder returned True. -/
structure RunEnv where
  dumpOk : Bool
  sizeRes : PyStrOrFalse
  renameRes : PyStrOrFalse
  uploadRes : Bool
deriving DecidableEq

/-- Embeds MongoDumpS3.exec after prepare_app_env succeeded: run
MongoDump.exec; on 'dump' == 'False' notify failure, cleanup, return False;
otherwise read dump_result['size'] and dump_result['path'], evaluate
Path(dump_path).parent — dump_path is the literal False when _rename_dump
failed, and Path(False) raises TypeError, aborting the run with no cleanup —
then upload the folder, notify success only when the upload returned True,
cleanup, and return the upload result. parentOf is pathlib's parent
computation. -/
def MongoDumpS3.exec (env : RunEnv) (parentOf : String → String) :
    List Event × ExecOutcome :=
  let dumpResult := MongoDump.execDict env.dumpOk env.sizeRes env.renameRes
  if dumpResult.dump = "False" then
    ([Event.notify false, Event.cleanupCall], ExecOutcome.ret false)
  else
    match dumpResult.size, dumpResult.path with
    | some _, some PyStrOrFalse.fail => ([], ExecOutcome.typeError)
    | some _, some (PyStrOrFalse.ok dumpPath) =>
      if env.uploadRes then
        ([Event.uploadFolderCall dumpPath (parentOf dumpPath),
          Event.notify true, Event.cleanupCall], ExecOutcome.ret true)
      else
        ([Event.uploadFolderCall dumpPath (parentOf dumpPath),
          Event.cleanupCall], ExecOutcome.ret false)
    | _, _ => ([], ExecOutcome.keyError)

/-! ## Shared lemmas -/

/-- The dated name is strictly longer than the output folder name, so the
working folder and the dated folder are always distinct directory names. -/
theorem mkDatedName_ne (outputFolder today : String) :
    outputFolder ≠ mkDatedName outputFolder today := by
  intro h
  have hlen := congrArg String.length h
  have h1 : ("-" : String).length = 1 := rfl
  rw [mkDatedName, String.length_append, String.length_append, h1] at hlen
  omega

/-- A successful rename: when the working folder exists and the OS move does
not fail, rename_dump returns the dated name, the dated folder now holds the
working folder's contents (whatever the dated name held before is gone, not
merged), and the working folder is gone. -/
theorem rename_dump_success (out today : String) (c : Nat) (fs : Fs)
    (h : fs out = some c) :
    (MongoDump.rename_dump out today false fs).2 =
      PyStrOrFalse.ok (mkDatedName out today) ∧
    (MongoDump.rename_dump out today false fs).1 (mkDatedName out today) =
      some c ∧
    (MongoDump.rename_dump out today false fs).1 out = none := by
  have hne : out ≠ mkDatedName out today := mkDatedName_ne out today
  rcases hd : fs (mkDatedName out today) with _ | c₀ <;>
    simp [MongoDump.rename_dump, shutilMove, fsErase, fsSet, hd, h, hne,
      Ne.symm hne]

/-- rename_dump reports False whenever the OS-level move fails. -/
theorem rename_dump_movefail (out today : String) (fs : Fs) :
    (MongoDump.rename_dump out today true fs).2 = PyStrOrFalse.fail := by
  simp [MongoDump.rename_dump]

/-! ## Claim theorems -/

/-- C2 (the failing part, evaluated at the failing input): for the URI
mongodb://localhost:1234 the probe goes to ("localhost", 27017), not to the
declared port 1234 — the source compares len(mongo_srv) to the STRING '2',
which is never true, so the parsed port is dead code. A server accepting
exactly at the declared port 1234 is reported unreachable, while one at
27017 is reported reachable. -/
theorem check_mongo_socket_ignores_declared_port :
    MongoDump.socket_targets "mongodb://localhost:1234" =
      [("localhost", 27017)] ∧
    MongoDump.check_mongo_socket "mongodb://localhost:1234"
      (fun h p => h == "localhost" && p == 1234) = false ∧
    MongoDump.check_mongo_socket "mongodb://localhost:1234"
      (fun h p => h == "localhost" && p == 27017) = true := by
  decide

/-- C3 (the failing part, evaluated at the failing input): when the working
output folder 'dump' exists, cleanup returns False and leaves 'dump' on disk
(with or without the dated folder also existing), because the second rmtree
call names the dated folder again; the dated folder itself does get
removed. -/
theorem cleanup_leaves_working_directory :
    ((MongoDump.cleanup "dump" "2024-01-15"
        (fun x => if x = "dump" then some 0 else none)).2 = false) ∧
    ((MongoDump.cleanup "dump" "2024-01-15"
        (fun x => if x = "dump" then some 0 else none)).1 "dump" = some 0) ∧
    ((MongoDump.cleanup "dump" "2024-01-15"
        (fun x => if x = "dump" then some 1
                  else if x = "dump-2024-01-15" then some 2 else none)).2 =
      false) ∧
    ((MongoDump.cleanup "dump" "2024-01-15"
        (fun x => if x = "dump" then some 1
                  else if x = "dump-2024-01-15" then some 2 else none)).1
      "dump" = some 1) ∧
    ((MongoDump.cleanup "dump" "2024-01-15"
        (fun x => if x = "dump" then some 1
                  else if x = "dump-2024-01-15" then some 2 else none)).1
      "dump-2024-01-15" = none) := by
  decide

/-- C8: dump_db returns True exactly when the connectivity check passed and
the external mongodump process exited with code 0. -/
theorem dump_db_success_iff (mongoUri : String)
    (connectExZero : String → Nat → Bool) (exitCode : Nat) :
    MongoDump.dump_db mongoUri connectExZero exitCode = true ↔
      (MongoDump.check_mongo_socket mongoUri connectExZero = true ∧
        exitCode = 0) := by
  unfold MongoDump.dump_db
  cases hc : MongoDump.check_mongo_socket mongoUri connectExZero <;>
    by_cases he : exitCode = 0 <;> simp [hc, he]

/-- C10: an empty string is treated exactly like an absent variable:
env_exists is true iff the value is neither None nor ''; an empty
MONGO_OUTPUT_FOLDER yields 'dump'; an empty MONGO_DUMP_BUCKET yields
'mongodump'; empty credentials make each provider constructor skip its
provider. -/
theorem env_exists_empty_equals_absent :
    (∀ s : String, env_exists (some s) = true ↔ s ≠ "") ∧
    env_exists none = false ∧
    MongoDump.resolveOutputFolder (some "") = "dump" ∧
    MongoDump.resolveOutputFolder none = "dump" ∧
    S3.resolveBucketName (some "") = "mongodump" ∧
    S3.resolveBucketName none = "mongodump" ∧
    (∀ (b : String) (cb lo : Bool) (conts : List String) (ce : Option String),
      S3.make_azure_client b cb ⟨some "", lo, conts, ce⟩ =
        ClientResult.noClient) ∧
    (∀ (b : String) (sk r : Option String) (lo : Bool) (bks : List String)
        (ce : Option String),
      S3.make_aws_client b ⟨some "", sk, r, lo, bks, ce⟩ =
        ClientResult.noClient) ∧
    (∀ (b : String) (fe : Bool) (r : Option String) (lo : Bool)
        (bks : List String) (ce : Option String),
      S3.make_gcp_client b ⟨some "", fe, r, lo, bks, ce⟩ =
        ClientResult.noClient) := by
  refine ⟨?_, rfl, rfl, rfl, rfl, rfl, ?_, ?_, ?_⟩
  · intro s
    by_cases h : s = "" <;> simp [env_exists, h]
  · intro b cb lo conts ce
    simp [S3.make_azure_client, env_exists]
  · intro b sk r lo bks ce
    simp [S3.make_aws_client, env_exists]
  · intro b fe r lo bks ce
    simp [S3.make_gcp_client, env_exists]

/-- C1 (coordinator cleanup, evaluated at the failing input): when the dump
succeeded but _rename_dump returned False, MongoDumpS3.exec evaluates
Path(False).parent, which raises TypeError — the run aborts with NO cleanup
call. On the dump-failure path and on both replication paths (upload True or
False) cleanup is called before returning. -/
theorem exec_finalize_failure_skips_cleanup :
    (MongoDumpS3.exec ⟨true, PyStrOrFalse.ok "2K", PyStrOrFalse.fail, true⟩
      id).2 = ExecOutcome.typeError ∧
    Event.cleanupCall ∉
      (MongoDumpS3.exec ⟨true, PyStrOrFalse.ok "2K", PyStrOrFalse.fail, true⟩
        id).1 ∧
    (∀ (s r : PyStrOrFalse) (u : Bool) (p : String → String),
      Event.cleanupCall ∈ (MongoDumpS3.exec ⟨false, s, r, u⟩ p).1) ∧
    (∀ (s : PyStrOrFalse) (pa : String) (u : Bool) (p : String → String),
      Event.cleanupCall ∈
        (MongoDumpS3.exec ⟨true, s, PyStrOrFalse.ok pa, u⟩ p).1) := by
  refine ⟨by decide, by decide, ?_, ?_⟩
  · intro s r u p
    simp [MongoDumpS3.exec, MongoDump.execDict, pyStr]
  · intro s pa u p
    cases u <;> simp [MongoDumpS3.exec, MongoDump.execDict, pyStr]

/-- C4 counterexample: with the bucket absent from the listing, creation
permitted, and the creation call failing with the provider's already-exists
condition, each constructor returns False (no handle) — not a ready handle
as the claim states. -/
theorem make_client_race_counterexample :
    S3.make_azure_client "mongodump" true
      ⟨some "cs", true, [], some "The specified container already exists."⟩ =
      ClientResult.noClient ∧
    S3.make_aws_client "mongodump"
      ⟨some "ak", some "sk", none, true, [],
        some "BucketAlreadyOwnedByYou"⟩ = ClientResult.noClient ∧
    S3.make_gcp_client "mongodump"
      ⟨some "creds.json", true, none, true, [],
        some "409 Conflict: already exists"⟩ = ClientResult.noClient ∧
    S3.make_azure_client "mongodump" true
      ⟨some "cs", true, [], some "The specified container already exists."⟩ ≠
      ClientResult.handle := by
  decide

/-- C4 (amended): already-exists is treated as success only through the
pre-creation listing check; when the bucket is absent from the listing and
the creation call itself fails — with any provider error message, an
already-exists race included — each constructor logs and returns no
handle. -/
theorem make_client_create_error_returns_noClient
    (b : String) (ae : AzureEnv) (we : AwsEnv) (ge : GcpEnv)
    (m₁ m₂ m₃ : String)
    (ha : env_exists ae.connectionString = true) (hal : ae.listOk = true)
    (hac : b ∉ ae.containers) (hae : ae.createError = some m₁)
    (hw : env_exists we.accessKeyId = true)
    (hw2 : env_exists we.secretAccessKey = true)
    (hwl : we.listOk = true) (hwc : b ∉ we.buckets)
    (hwe : we.createError = some m₂)
    (hg : env_exists ge.credentials = true) (hgf : ge.credsFileExists = true)
    (hgl : ge.listOk = true) (hgc : b ∉ ge.buckets)
    (hge : ge.createError = some m₃) :
    S3.make_azure_client b true ae = ClientResult.noClient ∧
    S3.make_aws_client b we = ClientResult.noClient ∧
    S3.make_gcp_client b ge = ClientResult.noClient := by
  refine ⟨?_, ?_, ?_⟩
  · simp [S3.make_azure_client, ha, hal, hac, hae]
  · simp [S3.make_aws_client, hw, hw2, hwl, hwc, hwe]
  · simp [S3.make_gcp_client, hg, hgf, hgl, hgc, hge]

/-- C4 witness: the amended behavior at a concrete race input. -/
theorem make_client_create_error_returns_noClient_witness :
    S3.make_azure_client "mongodump" true
      ⟨some "UseDevelopmentStorage=true", true, ["other"],
        some "ContainerAlreadyExists"⟩ = ClientResult.noClient :=
  (make_client_create_error_returns_noClient "mongodump"
    ⟨some "UseDevelopmentStorage=true", true, ["other"],
      some "ContainerAlreadyExists"⟩
    ⟨some "AKIA", some "secret", none, true, [],
      some "BucketAlreadyOwnedByYou"⟩
    ⟨some "sa.json", true, none, true, [], some "409 Conflict"⟩
    "ContainerAlreadyExists" "BucketAlreadyOwnedByYou" "409 Conflict"
    (by decide) rfl (by decide) rfl
    (by decide) (by decide) rfl (by decide) rfl
    (by decide) rfl rfl (by decide) rfl).1

/-- C5: whenever the local file exists, upload_local_file returns True no
matter what every provider's upload did (each SDK exception is caught inside
its own block), every configured provider is attempted in order with its own
outcome, and no per-provider failure shows in the return value; when the
local file does not exist it returns False and attempts nothing. -/
theorem upload_local_file_best_effort (providers : Providers)
    (env : UploadEnv) (c : Char) (cs : List Char)
    (remoteFilePath : List String) :
    (S3.upload_local_file providers (String.mk (c :: cs)) remoteFilePath
      env).result = some env.fileExists ∧
    (S3.upload_local_file providers (String.mk (c :: cs)) remoteFilePath
      env).attempts =
      (if env.fileExists then providerBlocks providers env else []) := by
  cases remoteFilePath <;> cases hfe : env.fileExists <;>
    simp [S3.upload_local_file, S3.resolveRemoteKey, String.toList, hfe]

/-- C9: when no explicit remote name is passed, the remote key used for every
provider is the one-character string holding the local path's first
character (the varargs tuple is replaced by the path string and indexed),
and for any local path longer than one character that is not the local path
itself. -/
theorem upload_local_file_default_key_first_char (providers : Providers)
    (env : UploadEnv) (c : Char) (cs : List Char) :
    (S3.upload_local_file providers (String.mk (c :: cs)) [] env).keyUsed =
      some (String.singleton c) ∧
    (cs ≠ [] →
      (S3.upload_local_file providers (String.mk (c :: cs)) [] env).keyUsed ≠
        some (String.mk (c :: cs))) := by
  have h1 : (S3.upload_local_file providers (String.mk (c :: cs)) []
      env).keyUsed = some (String.singleton c) := by
    cases hfe : env.fileExists <;>
      simp [S3.upload_local_file, S3.resolveRemoteKey, String.toList, hfe]
  refine ⟨h1, fun hcs heq => ?_⟩
  rw [h1] at heq
  have h2 := Option.some.inj heq
  have h3 := congrArg String.data h2
  simp [String.singleton] at h3
  exact hcs h3

/-- C9 witness: for the local path "dump" with no remote name, the key used
is not "dump" (it is "d"). -/
theorem upload_local_file_default_key_first_char_witness :
    (S3.upload_local_file ⟨true, true, true⟩
      (String.mk ['d', 'u', 'm', 'p']) []
      ⟨true, UploadOutcome.ok, UploadOutcome.ok, UploadOutcome.ok⟩).keyUsed ≠
      some (String.mk ['d', 'u', 'm', 'p']) :=
  (upload_local_file_default_key_first_char ⟨true, true, true⟩
    ⟨true, UploadOutcome.ok, UploadOutcome.ok, UploadOutcome.ok⟩
    'd' ['u', 'm', 'p']).2 (by decide)

/-- C6: finalizing computes {workingDir}-{today}; an already-existing dated
directory is deleted before the move (the final dated contents are exactly
the working directory's, never a merge); any OS-level move failure yields
False; and a retry on the same day — a fresh working directory recreated
after the first finalize — leaves the dated name holding the most recent
working directory's contents, with the working name gone. -/
theorem rename_dump_spec (outputFolder today : String) (c₁ c₂ : Nat) (fs : Fs)
    (h : fs outputFolder = some c₁) :
    (MongoDump.rename_dump outputFolder today false fs).2 =
      PyStrOrFalse.ok (mkDatedName outputFolder today) ∧
    (MongoDump.rename_dump outputFolder today false fs).1
      (mkDatedName outputFolder today) = some c₁ ∧
    (MongoDump.rename_dump outputFolder today false fs).1 outputFolder =
      none ∧
    (MongoDump.rename_dump outputFolder today true fs).2 =
      PyStrOrFalse.fail ∧
    (MongoDump.rename_dump outputFolder today false
        (fsSet (MongoDump.rename_dump outputFolder today false fs).1
          outputFolder c₂)).1 (mkDatedName outputFolder today) = some c₂ ∧
    (MongoDump.rename_dump outputFolder today false
        (fsSet (MongoDump.rename_dump outputFolder today false fs).1
          outputFolder c₂)).1 outputFolder = none := by
  have hmain := rename_dump_success outputFolder today c₁ fs h
  have hg : fsSet (MongoDump.rename_dump outputFolder today false fs).1
      outputFolder c₂ outputFolder = some c₂ := by simp [fsSet]
  have hretry := rename_dump_success outputFolder today c₂ _ hg
  exact ⟨hmain.1, hmain.2.1, hmain.2.2,
    rename_dump_movefail outputFolder today fs, hretry.2.1, hretry.2.2⟩

/-- C6 witness: a concrete same-day retry, starting from a filesystem that
already holds a stale dated folder. -/
theorem rename_dump_spec_witness :
    (MongoDump.rename_dump "dump" "2024-01-15" false
      (fun x => if x = "dump" then some 1
                else if x = "dump-2024-01-15" then some 0 else none)).1
      (mkDatedName "dump" "2024-01-15") = some 1 :=
  (rename_dump_spec "dump" "2024-01-15" 1 2
    (fun x => if x = "dump" then some 1
              else if x = "dump-2024-01-15" then some 0 else none)
    (by decide)).2.1

/-- relative_to respects extending the path below the stripped root. -/
theorem pathRelativeTo_append (par d rel rest : List String)
    (h : pathRelativeTo par d = some rest) :
    pathRelativeTo par (d ++ rel) = some (rest ++ rel) := by
  induction par generalizing d rest with
  | nil =>
    simp [pathRelativeTo] at h ⊢
    subst h
    rfl
  | cons a as ih =>
    cases d with
    | nil => simp [pathRelativeTo] at h
    | cons b bs =>
      by_cases hab : a = b
      · simp [pathRelativeTo, hab] at h ⊢
        exact ih bs rest h
      · simp [pathRelativeTo, hab] at h

/-- The upload loop with a strippable parent produces one call per file, in
order, keyed by the parent-relative path. -/
theorem uploadCalls_strippable (dirPath par rest : List String)
    (h : pathRelativeTo par dirPath = some rest)
    (files : List (List String)) :
    uploadCalls dirPath (some par) files =
      some (files.map fun rel =>
        (pathStr (dirPath ++ rel), pathStr (rest ++ rel))) := by
  induction files with
  | nil => rfl
  | cons f fl ih =>
    simp [uploadCalls, pathRelativeTo_append par dirPath f rest h, ih]

/-- The upload loop with no parent to strip keys every file by its full
local path. -/
theorem uploadCalls_noParent (dirPath : List String)
    (files : List (List String)) :
    uploadCalls dirPath none files =
      some (files.map fun rel =>
        (pathStr (dirPath ++ rel), pathStr (dirPath ++ rel))) := by
  induction files with
  | nil => rfl
  | cons f fl ih => simp [uploadCalls, ih]

/-- C7: on an existing directory every regular file below it is uploaded,
keyed by its full path with the parent stripped from the front (relative
directory structure preserved), or by the full local path when no parent is
given; the call returns True whenever the directory existed, and False when
it does not exist. -/
theorem upload_local_folder_keys (fs : FolderFs) (par rest : List String)
    (hdir : fs.dirExists = true)
    (hpar : pathRelativeTo par fs.dirPath = some rest) :
    S3.upload_local_folder fs (some par) =
      some (true, fs.files.map fun rel =>
        (pathStr (fs.dirPath ++ rel), pathStr (rest ++ rel))) ∧
    S3.upload_local_folder fs none =
      some (true, fs.files.map fun rel =>
        (pathStr (fs.dirPath ++ rel), pathStr (fs.dirPath ++ rel))) ∧
    (∀ fs' : FolderFs, fs'.dirExists = false →
      S3.upload_local_folder fs' (some par) = some (false, [])) := by
  refine ⟨?_, ?_, ?_⟩
  · simp [S3.upload_local_folder, hdir,
      uploadCalls_strippable fs.dirPath par rest hpar fs.files]
  · simp [S3.upload_local_folder, hdir, uploadCalls_noParent]
  · intro fs' h'
    simp [S3.upload_local_folder, h']

/-- C7 witness: the spec's example — files a.txt and sub/b.txt under the
dated folder, parent stripped to the folder itself, give keys a.txt and
sub/b.txt exactly. -/
theorem upload_local_folder_keys_witness :
    S3.upload_local_folder
      ⟨["home", "dump-2024-01-15"], true, [["a.txt"], ["sub", "b.txt"]]⟩
      (some ["home", "dump-2024-01-15"]) =
      some (true, [["a.txt"], ["sub", "b.txt"]].map fun rel =>
        (pathStr (["home", "dump-2024-01-15"] ++ rel),
          pathStr (([] : List String) ++ rel))) :=
  (upload_local_folder_keys
    ⟨["home", "dump-2024-01-15"], true, [["a.txt"], ["sub", "b.txt"]]⟩
    ["home", "dump-2024-01-15"] [] rfl (by decide)).1
